import Mathlib

set_option maxHeartbeats 1000000
set_option linter.unusedVariables false
set_option maxRecDepth 8192

/- Shallow embedding of src/src/Cafe/OS/libs/nsyshid/nsyshid.cpp (Cemu's
nsyshid HID device/handle manager).  Pure data: devices are identified by a
numeric id standing for the shared_ptr identity; guest memory buffers are
lists of byte values; the u32 handle counter is a Nat reduced mod 2^32. -/

/-- Result enum of `Device::Read` (Backend.h collaborator): `Success` carries
`ReadMessage::bytesRead` (a byte count, hence modelled as Nat). -/
inductive ReadResult
  | Success (bytesRead : Nat)
  | Error
  | ErrorTimeout
deriving DecidableEq

/-- Result enum of `Device::Write`: `Success` carries `WriteMessage::bytesWritten`. -/
inductive WriteResult
  | Success (bytesWritten : Nat)
  | Error
  | ErrorTimeout
deriving DecidableEq

/-- Behavioural model of one polymorphic `Device` (the backend capability
interface consumed by nsyshid.cpp): open state, whether `Open()` succeeds, and
the outcome of each capability call.  `getDescriptor` receives
(descType, descIndex, lang, outputMaxLength) and yields `some bytes` (the bytes
it wrote into the caller's buffer) on success, `none` on failure.  `read`
receives the buffer it is handed plus maxLength and yields the result enum and
the buffer contents after the device wrote into it. -/
structure DeviceModel where
  isOpened : Bool
  openOk : Bool
  getDescriptor : Nat → Nat → Nat → Nat → Option (List Nat)
  setIdleOk : Bool
  setProtocolOk : Bool
  setReportOk : Bool
  read : List Nat → Nat → ReadResult × List Nat
  write : List Nat → Nat → WriteResult

/-- One entry of `deviceList`: device identity plus the pool slot index it was
bound to by `GetFreeHID` and the handle assigned by `GenerateHIDHandle`. -/
structure DevEntry where
  devId : Nat
  slot : Nat
  handle : Nat
deriving DecidableEq

/-- `const int HID_MAX_NUM_DEVICES = 128;` -/
def HID_MAX_NUM_DEVICES : Nat := 128

/-- The shared mutable state of nsyshid.cpp: `deviceList`, the pool free-index
queue `HIDPoolIndexQueue` (front of the list = front of the queue), the
monotonic counter `_lastGeneratedHidHandle`, and `HIDClientList`
(front-inserted, clients identified by numeric id). -/
structure NsyshidState where
  deviceList : List DevEntry
  freeQueue : List Nat
  lastGeneratedHidHandle : Nat
  clientList : List Nat
deriving DecidableEq

/-- Initial state: empty registry, `InitHIDPoolIndexQueue` has pushed indices
0..127, `_lastGeneratedHidHandle = 1`, no clients. -/
def initState : NsyshidState :=
  { deviceList := []
    freeQueue := List.range HID_MAX_NUM_DEVICES
    lastGeneratedHidHandle := 1
    clientList := [] }

/-- `GenerateHIDHandle`: increments the u32 counter `_lastGeneratedHidHandle`
and returns the new value (u32 arithmetic, hence mod 2^32). -/
def GenerateHIDHandle (lastGenerated : Nat) : Nat :=
  (lastGenerated + 1) % 2 ^ 32

/-- Counter evolution across repeated `GenerateHIDHandle` calls:
`handleSeq 0 = 1` is the initial counter value, `handleSeq n` for `n ≥ 1` is
the value dispensed by the n-th call. -/
def handleSeq : Nat → Nat
  | 0 => 1
  | n + 1 => GenerateHIDHandle (handleSeq n)

/-- `const int HID_CALLBACK_DETACH = 0;` -/
def HID_CALLBACK_DETACH : Nat := 0

/-- `const int HID_CALLBACK_ATTACH = 1;` -/
def HID_CALLBACK_ATTACH : Nat := 1

/-- Whether a client callback is executed inline on the calling context
(`PPCCoreCallback`, as in `DoAttachCallback`/`DoDetachCallback`) or enqueued
onto the guest async-callback service (`coreinitAsyncCallback_add`, as in
`DoAttachCallbackAsync`/`DoDetachCallbackAsync`). -/
inductive DeliveryMode
  | inline
  | queued
deriving DecidableEq

/-- Observable actions performed by registry operations, in program order. -/
inductive HidAction
  | lockAcquire
  | lockRelease
  | removeFromRegistry (devId : Nat)
  | notify (client : Nat) (devId : Nat) (kind : Nat) (mode : DeliveryMode)
  | releaseSlot (slot : Nat)
  | closeDevice (devId : Nat)
deriving DecidableEq

/-- `AttachDevice(device)`: under the lock, fail if the device is already in
`deviceList`; fail if `GetFreeHID()` finds the pool index queue empty;
otherwise pop the front slot, assign `GenerateHIDHandle()`, `AssignHID`,
append to `deviceList`, and enqueue one asynchronous attach callback per
registered client.  Returns (result, new state, actions emitted). -/
def AttachDevice (st : NsyshidState) (d : Nat) : Bool × NsyshidState × List HidAction :=
  if st.deviceList.any (fun e => e.devId == d) then
    (false, st, [])
  else
    match st.freeQueue with
    | [] => (false, st, [])
    | slot :: rest =>
      (true,
       { st with
         deviceList := st.deviceList ++
           [{ devId := d, slot := slot,
              handle := GenerateHIDHandle st.lastGeneratedHidHandle }]
         freeQueue := rest
         lastGeneratedHidHandle := GenerateHIDHandle st.lastGeneratedHidHandle },
       st.clientList.map (fun c => HidAction.notify c d HID_CALLBACK_ATTACH DeliveryMode.queued))

/-- `DetachDevice(device)`: under the lock, look the device up in `deviceList`
(absent: diagnostic only, then return); if present erase it, enqueue one
asynchronous detach callback per registered client (`DoDetachCallbackAsync`),
`ReleaseHID` the device's slot (push index to the back of the queue), drop the
lock, then call `device->Close()`. -/
def DetachDevice (st : NsyshidState) (d : Nat) : NsyshidState × List HidAction :=
  match st.deviceList.find? (fun e => e.devId == d) with
  | none => (st, [HidAction.lockAcquire, HidAction.lockRelease])
  | some e =>
    ({ st with
       deviceList := st.deviceList.eraseP (fun e2 => e2.devId == d)
       freeQueue := st.freeQueue ++ [e.slot] },
     [HidAction.lockAcquire, HidAction.removeFromRegistry d]
       ++ st.clientList.map (fun c => HidAction.notify c d HID_CALLBACK_DETACH DeliveryMode.queued)
       ++ [HidAction.releaseSlot e.slot, HidAction.lockRelease, HidAction.closeDevice d])

/-- `export_HIDAddClient`: push the client to the FRONT of `HIDClientList`,
then walk the current `deviceList` in order delivering one INLINE attach
callback (`DoAttachCallback`, a direct `PPCCoreCallback`) per attached device;
the export returns 0.  Result: (new state, actions, return value). -/
def export_HIDAddClient (st : NsyshidState) (c : Nat) : NsyshidState × List HidAction × Int :=
  ({ st with clientList := c :: st.clientList },
   st.deviceList.map (fun e => HidAction.notify c e.devId HID_CALLBACK_ATTACH DeliveryMode.inline),
   0)

/-- `export_HIDDelClient`: `std::list::remove` the client (removes every equal
element), then walk the current `deviceList` in order delivering one INLINE
detach callback per attached device; returns 0. -/
def export_HIDDelClient (st : NsyshidState) (c : Nat) : NsyshidState × List HidAction × Int :=
  ({ st with clientList := st.clientList.filter (fun x => !(x == c)) },
   st.deviceList.map (fun e => HidAction.notify c e.devId HID_CALLBACK_DETACH DeliveryMode.inline),
   0)

/-- States reachable from the initial state through the registry-mutating
operations of nsyshid.cpp. -/
inductive Reachable : NsyshidState → Prop
  | init : Reachable initState
  | attach (st : NsyshidState) (d : Nat) :
      Reachable st → Reachable (AttachDevice st d).2.1
  | detach (st : NsyshidState) (d : Nat) :
      Reachable st → Reachable (DetachDevice st d).1
  | addClient (st : NsyshidState) (c : Nat) :
      Reachable st → Reachable (export_HIDAddClient st c).1
  | delClient (st : NsyshidState) (c : Nat) :
      Reachable st → Reachable (export_HIDDelClient st c).1

theorem length_eraseP_of_find? {α : Type} (p : α → Bool) :
    ∀ (l : List α) (e : α), l.find? p = some e → (l.eraseP p).length + 1 = l.length := by
  intro l
  induction l with
  | nil => intro e h; simp [List.find?] at h
  | cons a t ih =>
    intro e h
    cases hp : p a with
    | true => simp [List.eraseP_cons, hp]
    | false =>
      rw [List.find?_cons_of_neg _ (by simp [hp])] at h
      simp only [List.eraseP_cons, hp, cond_false, List.length_cons]
      have := ih e h
      omega

theorem attach_preserves_sum (st : NsyshidState) (d : Nat) :
    (AttachDevice st d).2.1.deviceList.length + (AttachDevice st d).2.1.freeQueue.length
      = st.deviceList.length + st.freeQueue.length := by
  unfold AttachDevice
  split
  · rfl
  · cases hq : st.freeQueue with
    | nil => simp [hq]
    | cons s rest => simp [hq, List.length_append]; omega

theorem detach_preserves_sum (st : NsyshidState) (d : Nat) :
    (DetachDevice st d).1.deviceList.length + (DetachDevice st d).1.freeQueue.length
      = st.deviceList.length + st.freeQueue.length := by
  unfold DetachDevice
  cases hf : st.deviceList.find? (fun e => e.devId == d) with
  | none => rfl
  | some e =>
    have h := length_eraseP_of_find? (fun e2 => e2.devId == d) st.deviceList e hf
    simp only [List.length_append, List.length_cons, List.length_nil]
    omega

/-- Conversion of a u32 value to the sint32 it is read back as when assigned
to a signed 32-bit return code (two's complement). -/
def toS32 (n : Nat) : Int :=
  if n % 2 ^ 32 < 2 ^ 31 then ((n % 2 ^ 32 : Nat) : Int)
  else ((n % 2 ^ 32 : Nat) : Int) - 2 ^ 32

/-- `memset(data, 0, maxLength)`: zero the first `maxLength` bytes of the
buffer. -/
def memsetZero (data : List Nat) (len : Nat) : List Nat :=
  List.replicate (min len data.length) 0 ++ data.drop len

/-- `_hidReadInternalSync`: reject with -1 if the device is not opened (before
touching the buffer); otherwise zero-fill the buffer up to `maxLength`, issue
`device->Read`, and map the result: Success ↦ `message.bytesRead`,
Error ↦ -1, ErrorTimeout ↦ -108.  Returns (status, buffer after the call). -/
def _hidReadInternalSync (dm : DeviceModel) (data : List Nat) (maxLength : Nat) :
    Int × List Nat :=
  if dm.isOpened = false then (-1, data)
  else
    match dm.read (memsetZero data maxLength) maxLength with
    | (ReadResult.Success n, buf) => ((n : Int), buf)
    | (ReadResult.Error, buf) => (-1, buf)
    | (ReadResult.ErrorTimeout, buf) => (-108, buf)

/-- `_hidWriteInternalSync`: reject with -1 if the device is not opened;
otherwise issue `device->Write` and map the result: Success ↦
`message.bytesWritten`, Error ↦ -1, ErrorTimeout ↦ -108. -/
def _hidWriteInternalSync (dm : DeviceModel) (data : List Nat) (maxLength : Nat) : Int :=
  if dm.isOpened = false then -1
  else
    match dm.write data maxLength with
    | WriteResult.Success n => (n : Int)
    | WriteResult.Error => -1
    | WriteResult.ErrorTimeout => -108

/-- The five guest-callback arguments `DoHIDTransferCallback` enqueues via
`coreinitAsyncCallback_add` (minus the opaque callback parameter). -/
structure TransferCallback where
  hidHandle : Nat
  errorCode : Int
  buffer : Nat
  length : Int
deriving DecidableEq

/-- `_hidReadAsync`: run the internal synchronous core, then deliver the
callback with errorCode = returnCode when negative else 0, and length =
returnCode when positive else 0.  Returns (callback payload, buffer after). -/
def _hidReadAsync (dm : DeviceModel) (data : List Nat) (maxLength hidHandle bufferAddr : Nat) :
    TransferCallback × List Nat :=
  ({ hidHandle := hidHandle
     errorCode :=
       if (_hidReadInternalSync dm data maxLength).1 < 0
       then (_hidReadInternalSync dm data maxLength).1 else 0
     buffer := bufferAddr
     length :=
       if (_hidReadInternalSync dm data maxLength).1 > 0
       then (_hidReadInternalSync dm data maxLength).1 else 0 },
   (_hidReadInternalSync dm data maxLength).2)

/-- `_hidWriteAsync`: same callback-shaping as `_hidReadAsync`, on top of
`_hidWriteInternalSync`. -/
def _hidWriteAsync (dm : DeviceModel) (data : List Nat) (maxLength hidHandle bufferAddr : Nat) :
    TransferCallback :=
  { hidHandle := hidHandle
    errorCode :=
      if _hidWriteInternalSync dm data maxLength < 0
      then _hidWriteInternalSync dm data maxLength else 0
    buffer := bufferAddr
    length :=
      if _hidWriteInternalSync dm data maxLength > 0
      then _hidWriteInternalSync dm data maxLength else 0 }

/-- The environment a transfer entry point runs against: the shared registry
state plus the behaviour of each device (keyed by device id). -/
structure Env where
  st : NsyshidState
  devices : Nat → DeviceModel

/-- `GetDeviceByHandle(handle, openIfClosed = true)` as used by all six
transfer exports: linear lookup by handle in `deviceList`; if found and the
device is not open, attempt `Open()`, failing the lookup if opening fails. -/
def GetDeviceByHandle (env : Env) (handle : Nat) : Option Nat :=
  match env.st.deviceList.find? (fun e => e.handle == handle) with
  | none => none
  | some e =>
    if (env.devices e.devId).isOpened then some e.devId
    else if (env.devices e.devId).openOk then some e.devId
    else none

/-- The device model after a successful `GetDeviceByHandle(handle, true)`:
either it was already open or `Open()` just succeeded, so it is open. -/
def resolvedDevice (env : Env) (d : Nat) : DeviceModel :=
  { env.devices d with isOpened := true }

/-- `export_HIDGetDescriptor` return value: -1 if the handle does not resolve;
with a null callback run `GetDescriptor` synchronously and return
`outputMaxLength` on success, -1 on failure; with a non-null callback spawn the
async worker and return 0. -/
def export_HIDGetDescriptor (env : Env)
    (handle descType descIndex lang outputMaxLength cbFunc : Nat) : Int :=
  match GetDeviceByHandle env handle with
  | none => -1
  | some d =>
    if cbFunc = 0 then
      match (resolvedDevice env d).getDescriptor descType descIndex lang outputMaxLength with
      | some _ => toS32 outputMaxLength
      | none => -1
    else 0

/-- `export_HIDSetIdle` return value: -1 on unresolved handle; sync: 0 on
success, -1 on failure; async: 0. -/
def export_HIDSetIdle (env : Env) (handle ifIndex reportId duration cbFunc : Nat) : Int :=
  match GetDeviceByHandle env handle with
  | none => -1
  | some d =>
    if cbFunc = 0 then (if (resolvedDevice env d).setIdleOk then 0 else -1)
    else 0

/-- `export_HIDSetProtocol` return value: -1 on unresolved handle; sync: 0 on
success, -1 on failure; async: 0. -/
def export_HIDSetProtocol (env : Env) (handle ifIndex protocol cbFunc : Nat) : Int :=
  match GetDeviceByHandle env handle with
  | none => -1
  | some d =>
    if cbFunc = 0 then (if (resolvedDevice env d).setProtocolOk then 0 else -1)
    else 0

/-- `export_HIDSetReport` return value: -1 on unresolved handle; sync
(`_hidSetReportSync`): `dataLength` on success, 0 on failure; async: 0. -/
def export_HIDSetReport (env : Env) (handle reportType reportId : Nat)
    (data : List Nat) (dataLength cbFunc : Nat) : Int :=
  match GetDeviceByHandle env handle with
  | none => -1
  | some d =>
    if cbFunc = 0 then (if (resolvedDevice env d).setReportOk then toS32 dataLength else 0)
    else 0

/-- `export_HIDRead` return value: -1 on unresolved handle; non-null callback:
spawn `_hidReadAsync` and return 0; null callback: run `_hidReadSync` (the
internal synchronous core behind an event wait) and return its status. -/
def export_HIDRead (env : Env) (handle : Nat) (data : List Nat) (maxLength cbFunc : Nat) : Int :=
  match GetDeviceByHandle env handle with
  | none => -1
  | some d =>
    if cbFunc ≠ 0 then 0
    else (_hidReadInternalSync (resolvedDevice env d) data maxLength).1

/-- `export_HIDWrite` return value: -1 on unresolved handle; non-null
callback: spawn `_hidWriteAsync` and return 0; null callback: run
`_hidWriteSync` and return its status. -/
def export_HIDWrite (env : Env) (handle : Nat) (data : List Nat) (maxLength cbFunc : Nat) : Int :=
  match GetDeviceByHandle env handle with
  | none => -1
  | some d =>
    if cbFunc ≠ 0 then 0
    else _hidWriteInternalSync (resolvedDevice env d) data maxLength

/-- `export_HIDDecodeError`: ignores its error-code argument, stores 0x3FF
into the first out-parameter and `(uint32)-0x7FFF` = 0xFFFF8001 into the
second, and returns 0.  Result: (out0, out1, return value). -/
def export_HIDDecodeError (errorCode : Nat) : Nat × Nat × Int :=
  (0x3FF, 2 ^ 32 - 0x7FFF, 0)

theorem pool_size_invariant : ∀ st, Reachable st →
    st.deviceList.length + st.freeQueue.length = HID_MAX_NUM_DEVICES := by
  intro st h
  induction h with
  | init => simp [initState, HID_MAX_NUM_DEVICES]
  | attach st' d _ ih => rw [attach_preserves_sum]; exact ih
  | detach st' d _ ih => rw [detach_preserves_sum]; exact ih
  | addClient st' c _ ih => exact ih
  | delClient st' c _ ih => exact ih

/-- A device whose every capability fails, and that is closed. -/
def probeClosedDevice : DeviceModel :=
  { isOpened := false
    openOk := false
    getDescriptor := fun _ _ _ _ => none
    setIdleOk := false
    setProtocolOk := false
    setReportOk := false
    read := fun buf _ => (ReadResult.Error, buf)
    write := fun _ _ => WriteResult.Error }

/-- Same behaviour but already open; its `read` fails while leaving the buffer
it was handed unchanged, which makes the buffer the core passed it visible. -/
def probeOpenDevice : DeviceModel := { probeClosedDevice with isOpened := true }

/-- An open device whose read succeeds with 0 bytes and whose write accepts
10 bytes (the spec's zero-length-read and partial-write scenarios). -/
def zeroReadDevice : DeviceModel :=
  { probeOpenDevice with
    read := fun buf _ => (ReadResult.Success 0, buf)
    write := fun _ _ => WriteResult.Success 10 }

/-- A resolved open device whose `GetDescriptor` succeeds writing 3 bytes. -/
def descProbeDevice : DeviceModel :=
  { probeOpenDevice with getDescriptor := fun _ _ _ _ => some [1, 2, 3] }

/-- State after attaching device 5 to the initial state (slot 0, handle 2). -/
def stA : NsyshidState := (AttachDevice initState 5).2.1

/-- `stA` with client 10 registered. -/
def stB : NsyshidState := (export_HIDAddClient stA 10).1

/-- Environment with device 5 attached (handle 2) behaving as `descProbeDevice`. -/
def envDesc : Env := { st := stA, devices := fun _ => descProbeDevice }

/-- Environment with an empty registry. -/
def envEmpty : Env := { st := initState, devices := fun _ => probeOpenDevice }

/-- State after n successful attaches of the distinct devices 0..n-1. -/
def attachSeq : Nat → NsyshidState
  | 0 => initState
  | n + 1 => (AttachDevice (attachSeq n) n).2.1

theorem reachable_attachSeq : ∀ n, Reachable (attachSeq n) := by
  intro n
  induction n with
  | zero => exact Reachable.init
  | succ k ih => exact Reachable.attach _ k ih

/-- Claim C1: for a synchronous Read or Write on an open device the internal
core maps the device result {Success, Error, ErrorTimeout} to {byte count,
-1, -108}, a 0-byte Success being a valid success value; in asynchronous mode
the callback carries error code 0 with length = bytes transferred if positive
else 0 on Success, and error code -1 or -108 with length 0 on error — never a
positive byte count on error. -/
theorem C1_transfer_status_mapping :
    ∀ (dm : DeviceModel) (data : List Nat) (maxLength hidHandle bufferAddr : Nat),
    dm.isOpened = true →
    (∀ n buf, dm.read (memsetZero data maxLength) maxLength = (ReadResult.Success n, buf) →
       (_hidReadInternalSync dm data maxLength).1 = (n : Int) ∧
       (_hidReadAsync dm data maxLength hidHandle bufferAddr).1.errorCode = 0 ∧
       (_hidReadAsync dm data maxLength hidHandle bufferAddr).1.length
         = (if (n : Int) > 0 then (n : Int) else 0)) ∧
    (∀ buf, dm.read (memsetZero data maxLength) maxLength = (ReadResult.Error, buf) →
       (_hidReadInternalSync dm data maxLength).1 = -1 ∧
       (_hidReadAsync dm data maxLength hidHandle bufferAddr).1.errorCode = -1 ∧
       (_hidReadAsync dm data maxLength hidHandle bufferAddr).1.length = 0) ∧
    (∀ buf, dm.read (memsetZero data maxLength) maxLength = (ReadResult.ErrorTimeout, buf) →
       (_hidReadInternalSync dm data maxLength).1 = -108 ∧
       (_hidReadAsync dm data maxLength hidHandle bufferAddr).1.errorCode = -108 ∧
       (_hidReadAsync dm data maxLength hidHandle bufferAddr).1.length = 0) ∧
    (∀ n, dm.write data maxLength = WriteResult.Success n →
       _hidWriteInternalSync dm data maxLength = (n : Int) ∧
       (_hidWriteAsync dm data maxLength hidHandle bufferAddr).errorCode = 0 ∧
       (_hidWriteAsync dm data maxLength hidHandle bufferAddr).length
         = (if (n : Int) > 0 then (n : Int) else 0)) ∧
    (dm.write data maxLength = WriteResult.Error →
       _hidWriteInternalSync dm data maxLength = -1 ∧
       (_hidWriteAsync dm data maxLength hidHandle bufferAddr).errorCode = -1 ∧
       (_hidWriteAsync dm data maxLength hidHandle bufferAddr).length = 0) ∧
    (dm.write data maxLength = WriteResult.ErrorTimeout →
       _hidWriteInternalSync dm data maxLength = -108 ∧
       (_hidWriteAsync dm data maxLength hidHandle bufferAddr).errorCode = -108 ∧
       (_hidWriteAsync dm data maxLength hidHandle bufferAddr).length = 0) := by
  intro dm data maxLength hidHandle bufferAddr hOpen
  refine ⟨?_, ?_, ?_, ?_, ?_, ?_⟩
  · intro n buf hr
    have hn : ¬((n : Int) < 0) := by exact_mod_cast Int.not_lt.mpr (Int.natCast_nonneg n)
    simp [_hidReadInternalSync, _hidReadAsync, hOpen, hr, hn]
  · intro buf hr
    simp [_hidReadInternalSync, _hidReadAsync, hOpen, hr]
  · intro buf hr
    simp [_hidReadInternalSync, _hidReadAsync, hOpen, hr]
  · intro n hw
    have hn : ¬((n : Int) < 0) := by exact_mod_cast Int.not_lt.mpr (Int.natCast_nonneg n)
    simp [_hidWriteInternalSync, _hidWriteAsync, hOpen, hw, hn]
  · intro hw
    simp [_hidWriteInternalSync, _hidWriteAsync, hOpen, hw]
  · intro hw
    simp [_hidWriteInternalSync, _hidWriteAsync, hOpen, hw]

/-- Witness for C1: a 0-byte successful read yields sync status 0 and an async
callback with error code 0 and length 0; a write accepting 10 of 20 bytes
returns 10. -/
theorem C1_witness :
    (_hidReadInternalSync zeroReadDevice [7, 7, 7] 2).1 = 0 ∧
    (_hidReadAsync zeroReadDevice [7, 7, 7] 2 9 100).1.errorCode = 0 ∧
    (_hidReadAsync zeroReadDevice [7, 7, 7] 2 9 100).1.length = 0 ∧
    _hidWriteInternalSync zeroReadDevice [1] 20 = 10 := by
  have h := C1_transfer_status_mapping zeroReadDevice [7, 7, 7] 2 9 100 rfl
  have hr := h.1 0 (memsetZero [7, 7, 7] 2) rfl
  have hw := h.2.2.2.1 10 rfl
  refine ⟨by exact_mod_cast hr.1, hr.2.1, ?_, hw.1⟩
  have := hr.2.2
  simpa using this

theorem handleSeq_eq : ∀ n, handleSeq n = (1 + n) % 2 ^ 32 := by
  intro n
  induction n with
  | zero => simp [handleSeq]
  | succ k ih =>
    show GenerateHIDHandle (handleSeq k) = (1 + (k + 1)) % 2 ^ 32
    rw [ih, GenerateHIDHandle, Nat.mod_add_mod]
    ring_nf

/-- Counterexample to C2: the handle counter is a u32, so it wraps.  The
(2^32-2)-th dispensed handle is 2^32-1 but the next one is 0 (not strictly
increasing), the (2^32)-th dispensed handle is the reserved sentinel 1, and
the (2^32+1)-th repeats the value 2 dispensed by the very first call. -/
theorem C2_counterexample :
    handleSeq (2 ^ 32 - 2) = 2 ^ 32 - 1 ∧
    handleSeq (2 ^ 32 - 1) = 0 ∧
    handleSeq (2 ^ 32) = 1 ∧
    handleSeq (2 ^ 32 + 1) = 2 ∧
    handleSeq 1 = 2 ∧
    (1 : Nat) ≠ 2 ^ 32 + 1 := by
  refine ⟨?_, ?_, ?_, ?_, by simp [handleSeq, GenerateHIDHandle], by norm_num⟩ <;>
    rw [handleSeq_eq] <;> norm_num

/-- Amended C2: the first dispensed handle is 2 (above the reserved sentinel 1),
and handle values are strictly increasing — hence pairwise distinct — among the
first 2^32 - 2 dispensed handles; beyond that the 32-bit counter wraps. -/
theorem C2_amended :
    handleSeq 1 = 2 ∧
    (∀ j k, 1 ≤ j → j < k → k ≤ 2 ^ 32 - 2 → handleSeq j < handleSeq k) := by
  constructor
  · simp [handleSeq, GenerateHIDHandle]
  · intro j k h1 hjk hk
    rw [handleSeq_eq, handleSeq_eq]
    rw [Nat.mod_eq_of_lt (by omega), Nat.mod_eq_of_lt (by omega)]
    omega

/-- Witness for C2 (amended): the first two dispensed handles are 2 < 3. -/
theorem C2_witness : handleSeq 1 = 2 ∧ handleSeq 1 < handleSeq 2 :=
  ⟨C2_amended.1, C2_amended.2 1 2 (Nat.le_refl 1) (by omega) (by norm_num)⟩

/-- Claim C3: in every reachable state the registry holds at most 128 devices,
and in a reachable state with exactly 128 registered devices any further
attach attempt returns false and leaves the registry unchanged. -/
theorem C3_pool_capacity : ∀ st, Reachable st →
    st.deviceList.length ≤ 128 ∧
    (st.deviceList.length = 128 →
      ∀ d, (AttachDevice st d).1 = false ∧ (AttachDevice st d).2.1 = st) := by
  intro st h
  have hsum := pool_size_invariant st h
  rw [HID_MAX_NUM_DEVICES] at hsum
  constructor
  · omega
  · intro h128 d
    have hqnil : st.freeQueue = [] := by
      have : st.freeQueue.length = 0 := by omega
      exact List.length_eq_zero.mp this
    unfold AttachDevice
    split
    · exact ⟨rfl, rfl⟩
    · rw [hqnil]
      exact ⟨rfl, rfl⟩

/-- Witness for C3: after attaching 128 distinct devices the registry holds
exactly 128 entries and the 129th attach fails with no state change. -/
theorem C3_witness :
    (attachSeq 128).deviceList.length = 128 ∧
    (AttachDevice (attachSeq 128) 128).1 = false ∧
    (AttachDevice (attachSeq 128) 128).2.1 = attachSeq 128 := by
  have h := C3_pool_capacity (attachSeq 128) (reachable_attachSeq 128)
  exact ⟨by decide, (h.2 (by decide) 128).1, (h.2 (by decide) 128).2⟩

/-- Claim C4: attach returns false exactly when the device is already present
or no free slot exists, and on failure the registry, pool queue, handle
counter, and client list (the whole shared state) are unchanged and no
notification is emitted. -/
theorem C4_attach_failure_conditions : ∀ (st : NsyshidState) (d : Nat),
    ((AttachDevice st d).1 = false ↔
      (st.deviceList.any (fun e => e.devId == d) = true ∨ st.freeQueue = [])) ∧
    ((AttachDevice st d).1 = false →
      (AttachDevice st d).2.1 = st ∧ (AttachDevice st d).2.2 = []) := by
  intro st d
  unfold AttachDevice
  cases ha : st.deviceList.any (fun e => e.devId == d) with
  | true => simp [ha]
  | false =>
    cases hq : st.freeQueue with
    | nil => simp [hq]
    | cons s rest => simp [hq]

/-- Witness for C4: attaching device 5 twice fails the second time with no
state change and no notification. -/
theorem C4_witness :
    (AttachDevice stA 5).1 = false ∧
    (AttachDevice stA 5).2.1 = stA ∧
    (AttachDevice stA 5).2.2 = [] := by
  have h := C4_attach_failure_conditions stA 5
  have hfail : (AttachDevice stA 5).1 = false := h.1.mpr (Or.inl (by decide))
  exact ⟨hfail, (h.2 hfail).1, (h.2 hfail).2⟩

/-- Counterexample to C5: detaching a registered device notifies clients via
`DoDetachCallbackAsync` (`coreinitAsyncCallback_add`), i.e. the notification is
queued asynchronously, not delivered synchronously: the detach trace of a state
with client 10 and device 5 contains a queued detach notification and no inline
one. -/
theorem C5_counterexample :
    HidAction.notify 10 5 HID_CALLBACK_DETACH DeliveryMode.queued ∈ (DetachDevice stB 5).2 ∧
    HidAction.notify 10 5 HID_CALLBACK_DETACH DeliveryMode.inline ∉ (DetachDevice stB 5).2 := by
  decide

/-- Amended C5: detach applied to a registered device performs, in order:
removal from the registry, enqueueing of one ASYNCHRONOUS detach notification
per registered client, release of the device's slot back to the pool, and —
after releasing the registry lock — invocation of the device's close
operation; detach on an unregistered device is a no-op leaving the whole state
(in particular registry size and free-slot count) unchanged. -/
theorem C5_amended : ∀ (st : NsyshidState) (d : Nat),
    (st.deviceList.find? (fun e => e.devId == d) = none →
      DetachDevice st d = (st, [HidAction.lockAcquire, HidAction.lockRelease])) ∧
    (∀ e, st.deviceList.find? (fun e2 => e2.devId == d) = some e →
      (DetachDevice st d).2
        = [HidAction.lockAcquire, HidAction.removeFromRegistry d]
          ++ st.clientList.map
              (fun c => HidAction.notify c d HID_CALLBACK_DETACH DeliveryMode.queued)
          ++ [HidAction.releaseSlot e.slot, HidAction.lockRelease, HidAction.closeDevice d] ∧
      (DetachDevice st d).1.deviceList.length + 1 = st.deviceList.length ∧
      (DetachDevice st d).1.freeQueue.length = st.freeQueue.length + 1) := by
  intro st d
  constructor
  · intro h
    unfold DetachDevice
    rw [h]
  · intro e h
    have hlen := length_eraseP_of_find? (fun e2 => e2.devId == d) st.deviceList e h
    unfold DetachDevice
    rw [h]
    refine ⟨rfl, by simpa using hlen, by simp⟩

/-- Witness for C5 (amended): detach of the unregistered device 0 from the
initial state is a no-op, and detach of device 5 from a state with client 10
removes it, queues the client notification, releases slot 0 and closes the
device after the lock is dropped. -/
theorem C5_witness :
    DetachDevice initState 0 = (initState, [HidAction.lockAcquire, HidAction.lockRelease]) ∧
    (DetachDevice stB 5).2
      = [HidAction.lockAcquire, HidAction.removeFromRegistry 5]
        ++ stB.clientList.map
            (fun c => HidAction.notify c 5 HID_CALLBACK_DETACH DeliveryMode.queued)
        ++ [HidAction.releaseSlot 0, HidAction.lockRelease, HidAction.closeDevice 5] := by
  have h0 := (C5_amended initState 0).1 (by decide)
  have h1 := (C5_amended stB 5).2 { devId := 5, slot := 0, handle := 2 } (by decide)
  exact ⟨h0, h1.1⟩

theorem toS32_of_lt (n : Nat) (h : n < 2 ^ 31) : toS32 n = (n : Int) := by
  unfold toS32
  rw [Nat.mod_eq_of_lt (by omega), if_pos h]

/-- Counterexample to C6: synchronous `HIDGetDescriptor` on a resolved device
whose descriptor fetch writes only 3 bytes into a 10-byte buffer returns 10
(the caller-supplied `outputMaxLength`), not the 3 bytes actually written. -/
theorem C6_counterexample :
    export_HIDGetDescriptor envDesc 2 0 0 0 10 0 = 10 ∧
    (descProbeDevice.getDescriptor 0 0 0 10).map List.length = some 3 ∧
    (10 : Int) ≠ (3 : Int) := by
  refine ⟨by decide, rfl, by decide⟩

/-- Amended C6: a synchronous GetDescriptor on a resolved device returns the
caller-supplied `outputMaxLength` (as a signed 32-bit value) whenever the
device's descriptor fetch succeeds — regardless of how many bytes were
written — and -1 when it fails. -/
theorem C6_amended : ∀ (env : Env) (handle descType descIndex lang maxLen d : Nat),
    GetDeviceByHandle env handle = some d →
    maxLen < 2 ^ 31 →
    ((∃ bs, (resolvedDevice env d).getDescriptor descType descIndex lang maxLen = some bs) →
      export_HIDGetDescriptor env handle descType descIndex lang maxLen 0 = (maxLen : Int)) ∧
    ((resolvedDevice env d).getDescriptor descType descIndex lang maxLen = none →
      export_HIDGetDescriptor env handle descType descIndex lang maxLen 0 = -1) := by
  intro env handle descType descIndex lang maxLen d hres hlt
  constructor
  · rintro ⟨bs, hbs⟩
    unfold export_HIDGetDescriptor
    rw [hres]
    simp [hbs, toS32_of_lt maxLen hlt]
  · intro hnone
    unfold export_HIDGetDescriptor
    rw [hres]
    simp [hnone]

/-- Witness for C6 (amended): on the 3-byte-writing device, a successful sync
GetDescriptor with a 10-byte buffer returns 10. -/
theorem C6_witness :
    export_HIDGetDescriptor envDesc 2 0 0 0 10 0 = (10 : Int) := by
  exact (C6_amended envDesc 2 0 0 0 10 5 (by decide) (by norm_num)).1 ⟨[1, 2, 3], rfl⟩

/-- Claim C7: a synchronous read on a closed device returns -1 with the
caller's buffer untouched (the open check precedes any buffer write); on an
open device the buffer handed to the device — and hence the buffer contents
after the call — starts from the zero-filled-up-to-maxLen buffer, whatever the
read outcome. -/
theorem C7_read_buffer_discipline :
    ∀ (dm : DeviceModel) (data : List Nat) (maxLength : Nat),
    (dm.isOpened = false → _hidReadInternalSync dm data maxLength = (-1, data)) ∧
    (dm.isOpened = true →
      (_hidReadInternalSync dm data maxLength).2
        = (dm.read (memsetZero data maxLength) maxLength).2) := by
  intro dm data maxLength
  constructor
  · intro h
    simp [_hidReadInternalSync, h]
  · intro h
    simp only [_hidReadInternalSync, h]
    rcases hr : dm.read (memsetZero data maxLength) maxLength with ⟨r, buf⟩
    cases r <;> simp [hr]

/-- Witness for C7: reading from a closed device leaves the buffer [9, 9]
untouched; reading from an open failing device yields the zeroed buffer that
was handed to the device. -/
theorem C7_witness :
    _hidReadInternalSync probeClosedDevice [9, 9] 2 = (-1, [9, 9]) ∧
    (_hidReadInternalSync probeOpenDevice [9, 9] 2).2
      = (probeOpenDevice.read (memsetZero [9, 9] 2) 2).2 := by
  exact ⟨(C7_read_buffer_discipline probeClosedDevice [9, 9] 2).1 rfl,
         (C7_read_buffer_discipline probeOpenDevice [9, 9] 2).2 rfl⟩

/-- Claim C8: registering a client while N devices are attached delivers
exactly N inline (synchronous, during the call) attach notifications to that
client, one per attached device in registry order, and registration itself
front-inserts the client; symmetrically, removing a client delivers one inline
detach notification per attached device during the call. -/
theorem C8_client_catchup : ∀ (st : NsyshidState) (c : Nat),
    (export_HIDAddClient st c).2.1
      = st.deviceList.map
          (fun e => HidAction.notify c e.devId HID_CALLBACK_ATTACH DeliveryMode.inline) ∧
    (export_HIDAddClient st c).2.1.length = st.deviceList.length ∧
    (export_HIDAddClient st c).1.clientList = c :: st.clientList ∧
    (export_HIDAddClient st c).1.deviceList = st.deviceList ∧
    (export_HIDDelClient st c).2.1
      = st.deviceList.map
          (fun e => HidAction.notify c e.devId HID_CALLBACK_DETACH DeliveryMode.inline) ∧
    (export_HIDDelClient st c).1.deviceList = st.deviceList := by
  intro st c
  refine ⟨rfl, ?_, rfl, rfl, rfl, rfl⟩
  simp [export_HIDAddClient]

/-- Counterexample to C9: with a non-null callback address (7) but a handle
that does not resolve to a device (empty registry, handle 1), the transfer
entry points return -1 — not the claimed unconditional 0. -/
theorem C9_counterexample :
    export_HIDRead envEmpty 1 [] 4 7 = -1 ∧
    export_HIDWrite envEmpty 1 [] 4 7 = -1 ∧
    export_HIDGetDescriptor envEmpty 1 0 0 0 4 7 = -1 ∧
    export_HIDSetIdle envEmpty 1 0 0 0 7 = -1 ∧
    export_HIDSetProtocol envEmpty 1 0 0 7 = -1 ∧
    export_HIDSetReport envEmpty 1 2 0 [] 0 7 = -1 ∧
    (-1 : Int) ≠ 0 := by
  refine ⟨rfl, rfl, rfl, rfl, rfl, rfl, by decide⟩

/-- Amended C9: for each of the six transfer entry points, once the handle
resolves to a device (including a successful implicit open), any non-null
callback address selects asynchronous mode and forces the immediate return
value to 0, while a null callback address selects synchronous mode; when the
handle does not resolve, the call returns -1 regardless of the callback. -/
theorem C9_async_mode_selection :
    ∀ (env : Env) (handle a b c : Nat) (data : List Nat) (len cb : Nat),
    (GetDeviceByHandle env handle = none →
      export_HIDGetDescriptor env handle a b c len cb = -1 ∧
      export_HIDSetIdle env handle a b c cb = -1 ∧
      export_HIDSetProtocol env handle a b cb = -1 ∧
      export_HIDSetReport env handle a b data len cb = -1 ∧
      export_HIDRead env handle data len cb = -1 ∧
      export_HIDWrite env handle data len cb = -1) ∧
    (∀ d, GetDeviceByHandle env handle = some d → cb ≠ 0 →
      export_HIDGetDescriptor env handle a b c len cb = 0 ∧
      export_HIDSetIdle env handle a b c cb = 0 ∧
      export_HIDSetProtocol env handle a b cb = 0 ∧
      export_HIDSetReport env handle a b data len cb = 0 ∧
      export_HIDRead env handle data len cb = 0 ∧
      export_HIDWrite env handle data len cb = 0) ∧
    (∀ d, GetDeviceByHandle env handle = some d → cb = 0 →
      export_HIDRead env handle data len cb
        = (_hidReadInternalSync (resolvedDevice env d) data len).1 ∧
      export_HIDWrite env handle data len cb
        = _hidWriteInternalSync (resolvedDevice env d) data len) := by
  intro env handle a b c data len cb
  refine ⟨?_, ?_, ?_⟩
  · intro h
    unfold export_HIDGetDescriptor export_HIDSetIdle export_HIDSetProtocol
      export_HIDSetReport export_HIDRead export_HIDWrite
    rw [h]
    exact ⟨rfl, rfl, rfl, rfl, rfl, rfl⟩
  · intro d h hcb
    unfold export_HIDGetDescriptor export_HIDSetIdle export_HIDSetProtocol
      export_HIDSetReport export_HIDRead export_HIDWrite
    rw [h]
    simp [hcb]
  · intro d h hcb
    unfold export_HIDRead export_HIDWrite
    rw [h]
    simp [hcb]

/-- Witness for C9 (amended): on the resolving handle 2 with non-null callback
7 every entry point returns 0; with a null callback HIDRead returns the
synchronous status of the internal core. -/
theorem C9_witness :
    export_HIDRead envDesc 2 [] 4 7 = 0 ∧
    export_HIDGetDescriptor envDesc 2 0 0 0 4 7 = 0 ∧
    export_HIDRead envDesc 2 [] 4 0
      = (_hidReadInternalSync (resolvedDevice envDesc 5) [] 4).1 := by
  have h := C9_async_mode_selection envDesc 2 0 0 0 [] 4 7
  have h0 := C9_async_mode_selection envDesc 2 0 0 0 [] 4 0
  refine ⟨?_, ?_, ?_⟩
  · exact ((h.2.1 5 (by decide) (by decide)).2.2.2.2.1)
  · exact ((h.2.1 5 (by decide) (by decide)).1)
  · exact ((h0.2.2 5 (by decide) rfl).1)

/-- Claim C10: `HIDDecodeError` ignores its error-code argument, always stores
0x3FF into its first out-parameter and the 32-bit two's-complement encoding of
-0x7FFF (-32767), i.e. 0xFFFF8001, into its second, and returns 0. -/
theorem C10_decode_error : ∀ e : Nat,
    export_HIDDecodeError e = (0x3FF, 0xFFFF8001, 0) ∧
    export_HIDDecodeError e = export_HIDDecodeError 0 ∧
    ((0xFFFF8001 : Int) = 2 ^ 32 + (-0x7FFF : Int)) := by
  intro e
  exact ⟨rfl, rfl, by norm_num⟩
